import Mathlib

/-!
Verification of the Export Aggregation core of the `completionist-archiver`
repository (`src/export/fribbels.rs`), shallowly embedded in Lean.

The embedding follows the Rust source line by line:

* `Database` is the reference snapshot (achievement ids, book ids, key table).
* `OptimizerExporter` is the stateful aggregator with its four operations
  `set_uid`, `add_inventory`, `add_achievements` and `read_command`, the
  readiness predicate `is_finished`, and the finalizer `export` (spelled
  `export'` here because `export` is a Lean keyword).
* `export_proto_achievement` and `export_proto_book` are the two validators.
  The achievement validator calls `proto.status.unwrap()` in the source, which
  panics when the status field is absent or holds no known enum value; panics
  are modelled by the `Except.error` branch, normal returns by `Except.ok`.
* Machine integers (`u32`, `u8`) are modelled as `Nat`: no arithmetic is ever
  performed on them, they are only compared, stored and looked up.
* The JSON (de)serialization derived by serde for `Export` is modelled over a
  `Json` value tree, mirroring the derived field-by-field impls; the textual
  layer (`serde_json` printing and parsing) belongs to the external library.
-/

namespace Fribbels

/-- Quest status enum of the protocol schema. The source names only
`QUEST_CLOSE` and `QUEST_FINISH`; the in-progress variants are modelled from
the spec ("any in-progress value"), their exact roster does not matter. -/
inductive QuestStatus where
  | QUEST_NONE
  | QUEST_DOING
  | QUEST_FINISH
  | QUEST_CLOSE
deriving DecidableEq, Repr

/-- Decoded quest payload (proto `Quest`). `status` models the payload's
status field; `none` stands for a status that is absent or holds no known
enum value, on which the source's `proto.status.unwrap()` panics. -/
structure Quest where
  id : Nat
  status : Option QuestStatus
deriving DecidableEq, Repr

/-- Decoded material payload (proto `Material`): only the item-type id `tid`
is read by the exporter. -/
structure Material where
  tid : Nat
deriving DecidableEq, Repr

/-- Decoded token payload (proto `PlayerGetTokenScRsp`): only `uid` is read. -/
structure PlayerGetTokenScRsp where
  uid : Nat
deriving DecidableEq, Repr

/-- Decoded inventory payload (proto `GetBagScRsp`): only `material_list` is
read by the exporter. -/
structure GetBagScRsp where
  material_list : List Material
deriving DecidableEq, Repr

/-- Decoded quest-data payload (proto `GetQuestDataScRsp`): only `quest_list`
is read by the exporter. -/
structure GetQuestDataScRsp where
  quest_list : List Quest
deriving DecidableEq, Repr

/-- The reference snapshot (`Database` in the source): achievement id list,
book id list, and the per-account key table (unused by the aggregator). -/
structure Database where
  achievement_list : List Nat
  book_list : List Nat
  keys : List (Nat × List Nat)
deriving DecidableEq, Repr

/-- Accepted achievement record. -/
structure Achievement where
  id : Nat
deriving DecidableEq, Repr

/-- Accepted book record. -/
structure Book where
  id : Nat
deriving DecidableEq, Repr

/-- Export metadata block. -/
structure Metadata where
  uid : Option Nat
deriving DecidableEq, Repr

/-- The export document (`Export` in the source). -/
structure Export where
  source : String
  build : String
  version : Nat
  metadata : Metadata
  achievements : List Nat
  books : List Nat
deriving DecidableEq, Repr

/-- Modelled from the spec: the fixed build-time version string
(`env!("CARGO_PKG_VERSION")`); `Cargo.toml` is not part of the provided
sources, so the exact text is opaque — only that it is a fixed constant
matters. -/
def CARGO_PKG_VERSION : String := "0.1.0"

/-- The validator for achievements (`export_proto_achievement`). Faithful to
the source including the panic: `proto.status.unwrap()` panics (modelled as
`Except.error`) when the status is absent or unknown; otherwise the payload is
accepted iff the status is `QUEST_CLOSE` or `QUEST_FINISH` and the id occurs
in the snapshot's achievement list. -/
def export_proto_achievement (db : Database) (proto : Quest) :
    Except String (Option Achievement) :=
  match proto.status with
  | none => Except.error "called Option::unwrap on a None value"
  | some st =>
    if (st == QuestStatus.QUEST_CLOSE || st == QuestStatus.QUEST_FINISH)
        && db.achievement_list.contains proto.id then
      Except.ok (some { id := proto.id })
    else
      Except.ok none

/-- The validator for books (`export_proto_book`): accepted iff the payload's
`tid` occurs in the snapshot's book list. -/
def export_proto_book (db : Database) (proto : Material) : Option Book :=
  if db.book_list.contains proto.tid then
    some { id := proto.tid }
  else
    none

/-- The aggregator state (`OptimizerExporter`). -/
structure OptimizerExporter where
  database : Database
  uid : Option Nat
  achievements : List Nat
  books : List Nat
deriving DecidableEq, Repr

/-- `OptimizerExporter::new`. -/
def OptimizerExporter.new (database : Database) : OptimizerExporter :=
  { database := database, uid := none, achievements := [], books := [] }

/-- `OptimizerExporter::set_uid`. -/
def OptimizerExporter.set_uid (s : OptimizerExporter) (uid : Nat) :
    OptimizerExporter :=
  { s with uid := some uid }

/-- `OptimizerExporter::add_inventory`: validate every material of the bag and
append the accepted ids to the book sequence. -/
def OptimizerExporter.add_inventory (s : OptimizerExporter) (bag : GetBagScRsp) :
    OptimizerExporter :=
  let books : List Book := bag.material_list.filterMap (export_proto_book s.database)
  let ids : List Nat := books.map Book.id
  { s with books := s.books ++ ids }

/-- The `quest_list.iter().filter_map(export_proto_achievement).collect()`
pipeline of `add_achievements`: validators run left to right, the first panic
aborts the whole traversal. -/
def collect_achievements (db : Database) : List Quest → Except String (List Achievement)
  | [] => Except.ok []
  | q :: rest =>
    match export_proto_achievement db q with
    | Except.error e => Except.error e
    | Except.ok a =>
      match collect_achievements db rest with
      | Except.error e => Except.error e
      | Except.ok tail =>
        Except.ok (match a with | some x => x :: tail | none => tail)

/-- `OptimizerExporter::add_achievements`: validate every quest of the payload
and append the accepted ids to the achievement sequence; a validator panic
(absent/unknown status) aborts. -/
def OptimizerExporter.add_achievements (s : OptimizerExporter)
    (quest : GetQuestDataScRsp) : Except String OptimizerExporter :=
  match collect_achievements s.database quest.quest_list with
  | Except.error e => Except.error e
  | Except.ok achievements =>
    Except.ok { s with achievements := s.achievements ++ achievements.map Achievement.id }

namespace command_id

/-- Modelled from the spec: the integer command-kind identifier of the token
command, a constant supplied by the external decoding library (`reliquary`);
its exact value is opaque, only that the three identifiers are distinct
matters. -/
def PlayerGetTokenScRsp : Nat := 104

/-- Modelled from the spec: the integer command-kind identifier of the
inventory command (see `command_id.PlayerGetTokenScRsp`). -/
def GetBagScRsp : Nat := 510

/-- Modelled from the spec: the integer command-kind identifier of the quest
command (see `command_id.PlayerGetTokenScRsp`). -/
def GetQuestDataScRsp : Nat := 910

end command_id

instance {ε α : Type} [DecidableEq ε] [DecidableEq α] : DecidableEq (Except ε α) :=
  fun a b =>
    match a, b with
    | Except.error e1, Except.error e2 => decidable_of_iff (e1 = e2) (by simp)
    | Except.ok x, Except.ok y => decidable_of_iff (x = y) (by simp)
    | Except.error _, Except.ok _ => isFalse fun h => Except.noConfusion h
    | Except.ok _, Except.error _ => isFalse fun h => Except.noConfusion h

/-- A decoded command envelope (`GameCommand` of the external library): a
command-kind identifier plus, for each of the three schemas the exporter may
request, the result of `parse_proto` — a typed payload or a schema-mismatch
error. The human-readable tag used only for logging is omitted. -/
structure GameCommand where
  command_id : Nat
  parse_token : Except String PlayerGetTokenScRsp
  parse_bag : Except String GetBagScRsp
  parse_quest : Except String GetQuestDataScRsp
deriving DecidableEq, Repr

/-- `Exporter::read_command` for `OptimizerExporter`: dispatch on the command
kind; parse failures are logged and dropped (state unchanged); unrecognized
kinds are ignored. The `Except` layer carries a possible validator panic from
the quest branch. -/
def OptimizerExporter.read_command (s : OptimizerExporter) (command : GameCommand) :
    Except String OptimizerExporter :=
  if command.command_id = command_id.PlayerGetTokenScRsp then
    match command.parse_token with
    | Except.ok cmd => Except.ok (s.set_uid cmd.uid)
    | Except.error _ => Except.ok s
  else if command.command_id = command_id.GetBagScRsp then
    match command.parse_bag with
    | Except.ok cmd => Except.ok (s.add_inventory cmd)
    | Except.error _ => Except.ok s
  else if command.command_id = command_id.GetQuestDataScRsp then
    match command.parse_quest with
    | Except.ok cmd => s.add_achievements cmd
    | Except.error _ => Except.ok s
  else
    Except.ok s

/-- `Exporter::is_finished` for `OptimizerExporter`. -/
def OptimizerExporter.is_finished (s : OptimizerExporter) : Bool :=
  s.uid.isSome && !s.achievements.isEmpty && !s.books.isEmpty

/-- `Exporter::export` for `OptimizerExporter` (spelled `export'`: `export` is
a Lean keyword). Always returns a document; the source only emits warnings for
missing pieces. -/
def OptimizerExporter.export' (s : OptimizerExporter) : Export :=
  { source := "completionist_archiver"
    build := CARGO_PKG_VERSION
    version := 3
    metadata := { uid := s.uid }
    achievements := s.achievements
    books := s.books }

/-- The aggregator states reachable from `OptimizerExporter::new` by the
public operations (a step through a fallible operation requires the operation
to return normally, i.e. not to panic). -/
inductive Reachable (db : Database) : OptimizerExporter → Prop where
  | new : Reachable db (OptimizerExporter.new db)
  | set_uid {s : OptimizerExporter} (uid : Nat) :
      Reachable db s → Reachable db (s.set_uid uid)
  | add_inventory {s : OptimizerExporter} (bag : GetBagScRsp) :
      Reachable db s → Reachable db (s.add_inventory bag)
  | add_achievements {s s' : OptimizerExporter} (quest : GetQuestDataScRsp) :
      Reachable db s → s.add_achievements quest = Except.ok s' → Reachable db s'
  | read_command {s s' : OptimizerExporter} (command : GameCommand) :
      Reachable db s → s.read_command command = Except.ok s' → Reachable db s'

/-- JSON value tree (the serde_json data model, restricted to what the export
document uses; numbers are the `u32` naturals of the document). -/
inductive Json where
  | null
  | num (n : Nat)
  | str (s : String)
  | arr (elems : List Json)
  | obj (fields : List (String × Json))

/-- Serialization of `Metadata` as derived by serde. -/
def Metadata.toJson (m : Metadata) : Json :=
  Json.obj [("uid", match m.uid with | none => Json.null | some u => Json.num u)]

/-- Serialization of `Export` as derived by serde. -/
def Export.toJson (e : Export) : Json :=
  Json.obj
    [ ("source", Json.str e.source)
    , ("build", Json.str e.build)
    , ("version", Json.num e.version)
    , ("metadata", e.metadata.toJson)
    , ("achievements", Json.arr (e.achievements.map Json.num))
    , ("books", Json.arr (e.books.map Json.num)) ]

/-- Field lookup during deserialization of a struct from a JSON object. -/
def Json.getField (j : Json) (name : String) : Except String Json :=
  match j with
  | Json.obj fields =>
    match fields.lookup name with
    | some v => Except.ok v
    | none => Except.error ("missing field " ++ name)
  | _ => Except.error "expected object"

/-- Deserialization of an unsigned integer. -/
def Json.asNat : Json → Except String Nat
  | Json.num n => Except.ok n
  | _ => Except.error "expected number"

/-- Deserialization of a string. -/
def Json.asStr : Json → Except String String
  | Json.str s => Except.ok s
  | _ => Except.error "expected string"

/-- Deserialization of an optional unsigned integer (`Option<u32>`): `null`
maps to `none`, a number to `some`. -/
def Json.asOptNat : Json → Except String (Option Nat)
  | Json.null => Except.ok none
  | Json.num n => Except.ok (some n)
  | _ => Except.error "expected number or null"

/-- Element loop of the sequence deserializer for `Vec<u32>`. -/
def natListOfJson : List Json → Except String (List Nat)
  | [] => Except.ok []
  | j :: rest =>
    match j.asNat with
    | Except.error e => Except.error e
    | Except.ok n =>
      match natListOfJson rest with
      | Except.error e => Except.error e
      | Except.ok ns => Except.ok (n :: ns)

/-- Deserialization of a `Vec<u32>`. -/
def Json.asNatList : Json → Except String (List Nat)
  | Json.arr elems => natListOfJson elems
  | _ => Except.error "expected array"

/-- Deserialization of `Metadata` as derived by serde. -/
def Metadata.fromJson (j : Json) : Except String Metadata :=
  match j.getField "uid" with
  | Except.error e => Except.error e
  | Except.ok juid =>
    match juid.asOptNat with
    | Except.error e => Except.error e
    | Except.ok uid => Except.ok { uid := uid }

/-- Deserialization of `Export` as derived by serde. -/
def Export.fromJson (j : Json) : Except String Export :=
  match (j.getField "source").bind Json.asStr with
  | Except.error e => Except.error e
  | Except.ok source =>
    match (j.getField "build").bind Json.asStr with
    | Except.error e => Except.error e
    | Except.ok build =>
      match (j.getField "version").bind Json.asNat with
      | Except.error e => Except.error e
      | Except.ok version =>
        match (j.getField "metadata").bind Metadata.fromJson with
        | Except.error e => Except.error e
        | Except.ok metadata =>
          match (j.getField "achievements").bind Json.asNatList with
          | Except.error e => Except.error e
          | Except.ok achievements =>
            match (j.getField "books").bind Json.asNatList with
            | Except.error e => Except.error e
            | Except.ok books =>
              Except.ok { source := source, build := build, version := version,
                          metadata := metadata, achievements := achievements,
                          books := books }

/-- The Bool guard of `export_proto_achievement` holds iff the status is
terminal and the id is in the reference achievement list. -/
theorem achievement_guard_iff (db : Database) (id : Nat) (st : QuestStatus) :
    ((st == QuestStatus.QUEST_CLOSE || st == QuestStatus.QUEST_FINISH)
        && db.achievement_list.contains id) = true ↔
      ((st = QuestStatus.QUEST_CLOSE ∨ st = QuestStatus.QUEST_FINISH) ∧
        id ∈ db.achievement_list) := by
  simp [List.contains]

/-- C1 (amended): for every reference snapshot and every quest payload whose
status field holds a known status value, `export_proto_achievement` returns an
accepted `Achievement` carrying the payload's id iff the status is
`QUEST_CLOSE` or `QUEST_FINISH` and the id is in the snapshot's achievement
reference list; in every other such combination it returns `none`. (Payloads
whose status is absent or unknown panic instead; see the C10 theorem.) -/
theorem c1_achievement_accept_iff (db : Database) (proto : Quest)
    (st : QuestStatus) (h : proto.status = some st) :
    (export_proto_achievement db proto = Except.ok (some { id := proto.id }) ↔
      ((st = QuestStatus.QUEST_CLOSE ∨ st = QuestStatus.QUEST_FINISH) ∧
        proto.id ∈ db.achievement_list)) ∧
    (¬ ((st = QuestStatus.QUEST_CLOSE ∨ st = QuestStatus.QUEST_FINISH) ∧
        proto.id ∈ db.achievement_list) →
      export_proto_achievement db proto = Except.ok none) := by
  have he : export_proto_achievement db proto =
      if (st == QuestStatus.QUEST_CLOSE || st == QuestStatus.QUEST_FINISH)
          && db.achievement_list.contains proto.id then
        Except.ok (some { id := proto.id })
      else Except.ok none := by
    unfold export_proto_achievement
    rw [h]
  rw [he]
  by_cases hb : ((st == QuestStatus.QUEST_CLOSE || st == QuestStatus.QUEST_FINISH)
      && db.achievement_list.contains proto.id) = true
  · rw [if_pos hb]
    exact ⟨⟨fun _ => (achievement_guard_iff db proto.id st).mp hb, fun _ => rfl⟩,
      fun hc => absurd ((achievement_guard_iff db proto.id st).mp hb) hc⟩
  · rw [if_neg hb]
    refine ⟨⟨fun heq => absurd heq (by simp), fun hc =>
      absurd ((achievement_guard_iff db proto.id st).mpr hc) hb⟩, fun _ => rfl⟩

/-- C1 witness: a concrete accepted quest payload (id 100 in the reference
list, status finished). -/
theorem c1_witness :
    export_proto_achievement
        { achievement_list := [100, 200], book_list := [55], keys := [] }
        { id := 100, status := some QuestStatus.QUEST_FINISH } =
      Except.ok (some { id := 100 }) :=
  (c1_achievement_accept_iff
      { achievement_list := [100, 200], book_list := [55], keys := [] }
      { id := 100, status := some QuestStatus.QUEST_FINISH }
      QuestStatus.QUEST_FINISH rfl).1.mpr ⟨Or.inr rfl, by decide⟩

/-- C1 counterexample: at a payload whose status is absent and whose id (300)
is outside the reference set, the claim as stated demands `none`, but the
source panics (`Except.error`), returning neither `none` nor an accepted
record. -/
theorem c1_counterexample :
    export_proto_achievement
        { achievement_list := [100, 200], book_list := [55], keys := [] }
        { id := 300, status := none } =
      Except.error "called Option::unwrap on a None value" ∧
    export_proto_achievement
        { achievement_list := [100, 200], book_list := [55], keys := [] }
        { id := 300, status := none } ≠ Except.ok none := by
  exact ⟨rfl, by simp [export_proto_achievement]⟩

/-- C2: `export_proto_book` returns an accepted `Book` carrying the payload's
item-type id iff that id is in the snapshot's book reference list; otherwise
it returns `none`. -/
theorem c2_book_accept_iff (db : Database) (m : Material) :
    (export_proto_book db m = some { id := m.tid } ↔ m.tid ∈ db.book_list) ∧
    (m.tid ∉ db.book_list → export_proto_book db m = none) := by
  unfold export_proto_book
  by_cases hm : m.tid ∈ db.book_list
  · simp [List.contains, hm]
  · simp [List.contains, hm]

/-- C2 witness: a concrete accepted book (tid 55 in the reference list). -/
theorem c2_witness :
    export_proto_book { achievement_list := [100, 200], book_list := [55], keys := [] }
      { tid := 55 } = some { id := 55 } :=
  (c2_book_accept_iff { achievement_list := [100, 200], book_list := [55], keys := [] }
      { tid := 55 }).1.mpr (by decide)

/-- C3: `is_finished` is true iff the account id is set and both accumulated
sequences are non-empty. -/
theorem c3_is_finished_iff (s : OptimizerExporter) :
    s.is_finished = true ↔
      (s.uid ≠ none ∧ s.achievements ≠ [] ∧ s.books ≠ []) := by
  simp [OptimizerExporter.is_finished, Option.isSome_iff_ne_none, List.isEmpty_iff,
    and_assoc]

/-- C3 witness: a concrete state with uid set and both sequences non-empty is
finished. -/
theorem c3_witness :
    OptimizerExporter.is_finished
      { database := { achievement_list := [100, 200], book_list := [55], keys := [] },
        uid := some 123456, achievements := [100], books := [55] } = true :=
  (c3_is_finished_iff
    { database := { achievement_list := [100, 200], book_list := [55], keys := [] },
      uid := some 123456, achievements := [100], books := [55] }).mpr (by decide)

/-- C4: `export` is total on every aggregator state (readiness is not
required): the document's version is the constant 3, source and build are the
fixed constants, the metadata uid is the accumulated optional account id
(`none` when unset), and the achievement and book fields are the accumulated
sequences (possibly empty). -/
theorem c4_export_fields (s : OptimizerExporter) :
    (s.export').version = 3 ∧
    (s.export').source = "completionist_archiver" ∧
    (s.export').build = CARGO_PKG_VERSION ∧
    (s.export').metadata.uid = s.uid ∧
    (s.export').achievements = s.achievements ∧
    (s.export').books = s.books := by
  simp [OptimizerExporter.export']

/-- C10: the achievement validator is not total: on any payload whose status
field is absent (or holds no known enum value), `proto.status.unwrap()` panics
instead of returning `none`, whatever the id and the snapshot. -/
theorem c10_status_unwrap_panics (db : Database) (proto : Quest)
    (h : proto.status = none) :
    export_proto_achievement db proto =
      Except.error "called Option::unwrap on a None value" := by
  unfold export_proto_achievement
  rw [h]

/-- C10 witness: a concrete status-less payload whose id (900) is outside the
reference set panics. -/
theorem c10_witness :
    export_proto_achievement
        { achievement_list := [100, 200], book_list := [55], keys := [] }
        { id := 900, status := none } =
      Except.error "called Option::unwrap on a None value" :=
  c10_status_unwrap_panics
    { achievement_list := [100, 200], book_list := [55], keys := [] }
    { id := 900, status := none } rfl

/-- C6: a command whose kind identifier is none of the three recognized ones
leaves the aggregator state unchanged (and cannot panic). -/
theorem c6_unrecognized_kind_ignored (s : OptimizerExporter) (cmd : GameCommand)
    (h1 : cmd.command_id ≠ command_id.PlayerGetTokenScRsp)
    (h2 : cmd.command_id ≠ command_id.GetBagScRsp)
    (h3 : cmd.command_id ≠ command_id.GetQuestDataScRsp) :
    s.read_command cmd = Except.ok s := by
  unfold OptimizerExporter.read_command
  rw [if_neg h1, if_neg h2, if_neg h3]

/-- C6 witness: a concrete command of unrecognized kind 9999 is ignored. -/
theorem c6_witness :
    OptimizerExporter.read_command
        (OptimizerExporter.new { achievement_list := [100, 200], book_list := [55], keys := [] })
        { command_id := 9999, parse_token := Except.error "schema mismatch",
          parse_bag := Except.error "schema mismatch",
          parse_quest := Except.error "schema mismatch" } =
      Except.ok (OptimizerExporter.new
        { achievement_list := [100, 200], book_list := [55], keys := [] }) :=
  c6_unrecognized_kind_ignored
    (OptimizerExporter.new { achievement_list := [100, 200], book_list := [55], keys := [] })
    { command_id := 9999, parse_token := Except.error "schema mismatch",
      parse_bag := Except.error "schema mismatch",
      parse_quest := Except.error "schema mismatch" }
    (by decide) (by decide) (by decide)

/-- C7: a recognized command whose payload fails the schema decode is dropped
whole: the state is returned unchanged and no error escapes. -/
theorem c7_parse_error_atomic (s : OptimizerExporter) (cmd : GameCommand) (e : String)
    (h : (cmd.command_id = command_id.PlayerGetTokenScRsp ∧
            cmd.parse_token = Except.error e) ∨
         (cmd.command_id = command_id.GetBagScRsp ∧
            cmd.parse_bag = Except.error e) ∨
         (cmd.command_id = command_id.GetQuestDataScRsp ∧
            cmd.parse_quest = Except.error e)) :
    s.read_command cmd = Except.ok s := by
  unfold OptimizerExporter.read_command
  rcases h with ⟨hid, hp⟩ | ⟨hid, hp⟩ | ⟨hid, hp⟩
  · rw [if_pos hid, hp]
  · rw [if_neg (by rw [hid]; decide), if_pos hid, hp]
  · rw [if_neg (by rw [hid]; decide), if_neg (by rw [hid]; decide), if_pos hid, hp]

/-- C7 witness: a concrete quest-kind command with a failing schema decode
leaves the fresh state unchanged. -/
theorem c7_witness :
    OptimizerExporter.read_command
        (OptimizerExporter.new { achievement_list := [100, 200], book_list := [55], keys := [] })
        { command_id := 910, parse_token := Except.error "schema mismatch",
          parse_bag := Except.error "schema mismatch",
          parse_quest := Except.error "schema mismatch" } =
      Except.ok (OptimizerExporter.new
        { achievement_list := [100, 200], book_list := [55], keys := [] }) :=
  c7_parse_error_atomic
    (OptimizerExporter.new { achievement_list := [100, 200], book_list := [55], keys := [] })
    { command_id := 910, parse_token := Except.error "schema mismatch",
      parse_bag := Except.error "schema mismatch",
      parse_quest := Except.error "schema mismatch" }
    "schema mismatch" (Or.inr (Or.inr ⟨rfl, rfl⟩))

/-- A book payload whose tid is in the reference list is accepted. -/
theorem export_proto_book_of_mem (db : Database) (tid : Nat) (h : tid ∈ db.book_list) :
    export_proto_book db { tid := tid } = some { id := tid } := by
  unfold export_proto_book
  simp [List.contains, h]

/-- A finished quest payload whose id is in the reference list is accepted. -/
theorem export_proto_achievement_finish_of_mem (db : Database) (aid : Nat)
    (h : aid ∈ db.achievement_list) :
    export_proto_achievement db { id := aid, status := some QuestStatus.QUEST_FINISH } =
      Except.ok (some { id := aid }) := by
  unfold export_proto_achievement
  simp [List.contains, h]

/-- The collect pipeline on a single accepted finished quest. -/
theorem collect_achievements_single (db : Database) (aid : Nat)
    (h : aid ∈ db.achievement_list) :
    collect_achievements db [{ id := aid, status := some QuestStatus.QUEST_FINISH }] =
      Except.ok [{ id := aid }] := by
  unfold collect_achievements
  rw [export_proto_achievement_finish_of_mem db aid h]
  rfl

/-- C8: no deduplication. Feeding an accepted book payload appends its id to
the end of the book sequence whatever the current state (in particular when
the id already occurs), feeding an accepted finished quest payload appends its
id to the achievement sequence likewise, and feeding the same accepted book
payload twice yields two more occurrences of its id. -/
theorem c8_no_dedup (s : OptimizerExporter) (tid aid : Nat)
    (hb : tid ∈ s.database.book_list) (ha : aid ∈ s.database.achievement_list) :
    (s.add_inventory { material_list := [{ tid := tid }] }).books = s.books ++ [tid] ∧
    s.add_achievements
        { quest_list := [{ id := aid, status := some QuestStatus.QUEST_FINISH }] } =
      Except.ok { s with achievements := s.achievements ++ [aid] } ∧
    ((s.add_inventory { material_list := [{ tid := tid }] }).add_inventory
        { material_list := [{ tid := tid }] }).books.count tid =
      s.books.count tid + 2 := by
  have h1 : ∀ t : OptimizerExporter, t.database = s.database →
      (t.add_inventory { material_list := [{ tid := tid }] }).books = t.books ++ [tid] := by
    intro t ht
    simp [OptimizerExporter.add_inventory, ht, export_proto_book_of_mem s.database tid hb]
  refine ⟨h1 s rfl, ?_, ?_⟩
  · unfold OptimizerExporter.add_achievements
    rw [collect_achievements_single s.database aid ha]
    rfl
  · rw [h1 (s.add_inventory { material_list := [{ tid := tid }] }) rfl, h1 s rfl]
    simp [List.count_append]

/-- C8 witness: feeding book id 55 into a state whose book sequence already
holds 55 appends a duplicate. -/
theorem c8_witness :
    (OptimizerExporter.add_inventory
        { database := { achievement_list := [100, 200], book_list := [55], keys := [] },
          uid := none, achievements := [], books := [55] }
        { material_list := [{ tid := 55 }] }).books = [55] ++ [55] :=
  (c8_no_dedup
    { database := { achievement_list := [100, 200], book_list := [55], keys := [] },
      uid := none, achievements := [], books := [55] }
    55 100 (by decide) (by decide)).1

/-- A validator success `some bk` puts a reference-list member into `bk`. -/
theorem export_proto_book_ok_mem (db : Database) (m : Material) (bk : Book)
    (h : export_proto_book db m = some bk) : bk.id ∈ db.book_list := by
  unfold export_proto_book at h
  by_cases hm : db.book_list.contains m.tid = true
  · rw [if_pos hm] at h
    cases h
    simpa [List.contains] using hm
  · rw [if_neg hm] at h
    cases h

/-- Every id produced by the book pipeline of `add_inventory` is in the
reference book list. -/
theorem add_inventory_ids_mem (db : Database) (materials : List Material) :
    ∀ b ∈ (materials.filterMap (export_proto_book db)).map Book.id,
      b ∈ db.book_list := by
  intro b hbm
  simp only [List.mem_map, List.mem_filterMap] at hbm
  obtain ⟨bk, ⟨m, _, hm⟩, rfl⟩ := hbm
  exact export_proto_book_ok_mem db m bk hm

/-- The validator panics on an absent/unknown status. -/
theorem export_proto_achievement_status_none (db : Database) (q : Quest)
    (h : q.status = none) :
    export_proto_achievement db q =
      Except.error "called Option::unwrap on a None value" := by
  unfold export_proto_achievement
  rw [h]

/-- A validator success `Except.ok (some a)` puts a reference-list member into
`a`. -/
theorem export_proto_achievement_ok_mem (db : Database) (q : Quest) (a : Achievement)
    (h : export_proto_achievement db q = Except.ok (some a)) :
    a.id ∈ db.achievement_list := by
  cases hs : q.status with
  | none =>
    rw [export_proto_achievement_status_none db q hs] at h
    cases h
  | some st =>
    have he : export_proto_achievement db q =
        if (st == QuestStatus.QUEST_CLOSE || st == QuestStatus.QUEST_FINISH)
            && db.achievement_list.contains q.id then
          Except.ok (some { id := q.id })
        else Except.ok none := by
      unfold export_proto_achievement
      rw [hs]
    rw [he] at h
    by_cases hb : ((st == QuestStatus.QUEST_CLOSE || st == QuestStatus.QUEST_FINISH)
        && db.achievement_list.contains q.id) = true
    · rw [if_pos hb] at h
      injection h with h
      injection h with h
      subst h
      exact ((achievement_guard_iff db q.id st).mp hb).2
    · rw [if_neg hb] at h
      injection h with h
      cases h

/-- Every achievement returned by a successful collect pipeline has its id in
the reference achievement list. -/
theorem collect_achievements_mem (db : Database) :
    ∀ (qs : List Quest) (l : List Achievement),
      collect_achievements db qs = Except.ok l →
      ∀ x ∈ l, x.id ∈ db.achievement_list := by
  intro qs
  induction qs with
  | nil =>
    intro l hl x hx
    unfold collect_achievements at hl
    injection hl with hl
    subst hl
    cases hx
  | cons q rest ih =>
    intro l hl x hx
    unfold collect_achievements at hl
    cases hq : export_proto_achievement db q with
    | error e => rw [hq] at hl; cases hl
    | ok a =>
      rw [hq] at hl
      cases hc : collect_achievements db rest with
      | error e => rw [hc] at hl; cases hl
      | ok tail =>
        rw [hc] at hl
        cases a with
        | none =>
          injection hl with hl
          subst hl
          exact ih tail hc x hx
        | some y =>
          injection hl with hl
          subst hl
          rcases List.mem_cons.mp hx with h | h
          · subst h
            exact export_proto_achievement_ok_mem db q x hq
          · exact ih tail hc x h

/-- The reference-membership invariant of the aggregator: the stored snapshot
is the construction one and both accumulated sequences only hold reference
members. -/
def RefInv (db : Database) (s : OptimizerExporter) : Prop :=
  s.database = db ∧
  (∀ a ∈ s.achievements, a ∈ db.achievement_list) ∧
  (∀ b ∈ s.books, b ∈ db.book_list)

/-- The invariant holds at construction. -/
theorem refInv_new (db : Database) : RefInv db (OptimizerExporter.new db) :=
  ⟨rfl, by simp [OptimizerExporter.new], by simp [OptimizerExporter.new]⟩

/-- `set_uid` preserves the invariant. -/
theorem refInv_set_uid {db : Database} {s : OptimizerExporter} (u : Nat)
    (h : RefInv db s) : RefInv db (s.set_uid u) := h

/-- `add_inventory` preserves the invariant. -/
theorem refInv_add_inventory {db : Database} {s : OptimizerExporter}
    (bag : GetBagScRsp) (h : RefInv db s) : RefInv db (s.add_inventory bag) := by
  obtain ⟨hdb, hach, hbk⟩ := h
  refine ⟨hdb, hach, ?_⟩
  intro b hb
  simp only [OptimizerExporter.add_inventory, List.mem_append] at hb
  rcases hb with h | h
  · exact hbk b h
  · rw [← hdb]
    exact add_inventory_ids_mem s.database bag.material_list b h

/-- `add_achievements` preserves the invariant when it returns normally. -/
theorem refInv_add_achievements {db : Database} {s s' : OptimizerExporter}
    (q : GetQuestDataScRsp) (h : RefInv db s)
    (hs : s.add_achievements q = Except.ok s') : RefInv db s' := by
  obtain ⟨hdb, hach, hbk⟩ := h
  unfold OptimizerExporter.add_achievements at hs
  cases hc : collect_achievements s.database q.quest_list with
  | error e => rw [hc] at hs; cases hs
  | ok l =>
    rw [hc] at hs
    injection hs with hs
    subst hs
    refine ⟨hdb, ?_, hbk⟩
    intro a ha
    simp only [List.mem_append] at ha
    rcases ha with h | h
    · exact hach a h
    · rw [← hdb]
      simp only [List.mem_map] at h
      obtain ⟨x, hx, rfl⟩ := h
      exact collect_achievements_mem s.database q.quest_list l hc x hx

/-- `read_command` preserves the invariant when it returns normally. -/
theorem refInv_read_command {db : Database} {s s' : OptimizerExporter}
    (cmd : GameCommand) (h : RefInv db s)
    (hs : s.read_command cmd = Except.ok s') : RefInv db s' := by
  unfold OptimizerExporter.read_command at hs
  by_cases h1 : cmd.command_id = command_id.PlayerGetTokenScRsp
  · rw [if_pos h1] at hs
    cases hp : cmd.parse_token with
    | ok c =>
      rw [hp] at hs
      injection hs with hs
      subst hs
      exact refInv_set_uid c.uid h
    | error e =>
      rw [hp] at hs
      injection hs with hs
      subst hs
      exact h
  · rw [if_neg h1] at hs
    by_cases h2 : cmd.command_id = command_id.GetBagScRsp
    · rw [if_pos h2] at hs
      cases hp : cmd.parse_bag with
      | ok c =>
        rw [hp] at hs
        injection hs with hs
        subst hs
        exact refInv_add_inventory c h
      | error e =>
        rw [hp] at hs
        injection hs with hs
        subst hs
        exact h
    · rw [if_neg h2] at hs
      by_cases h3 : cmd.command_id = command_id.GetQuestDataScRsp
      · rw [if_pos h3] at hs
        cases hp : cmd.parse_quest with
        | ok c =>
          rw [hp] at hs
          exact refInv_add_achievements c h hs
        | error e =>
          rw [hp] at hs
          injection hs with hs
          subst hs
          exact h
      · rw [if_neg h3] at hs
        injection hs with hs
        subst hs
        exact h

/-- C5: on every state reachable from the fresh aggregator by the public
operations, every accumulated achievement id is in the snapshot's achievement
reference list and every accumulated book id is in the snapshot's book
reference list. -/
theorem c5_reference_invariant (db : Database) (s : OptimizerExporter)
    (h : Reachable db s) :
    (∀ a ∈ s.achievements, a ∈ db.achievement_list) ∧
    (∀ b ∈ s.books, b ∈ db.book_list) := by
  have hinv : RefInv db s := by
    induction h with
    | new => exact refInv_new db
    | set_uid u _ ih => exact refInv_set_uid u ih
    | add_inventory bag _ ih => exact refInv_add_inventory bag ih
    | add_achievements q _ hq ih => exact refInv_add_achievements q ih hq
    | read_command cmd _ hc ih => exact refInv_read_command cmd ih hc
  exact ⟨hinv.2.1, hinv.2.2⟩

/-- C5 witness: after feeding an accepted book into the fresh aggregator, the
accumulated id 55 is in the reference book list. -/
theorem c5_witness :
    (55 : Nat) ∈
      Database.book_list { achievement_list := [100, 200], book_list := [55], keys := [] } :=
  (c5_reference_invariant
      { achievement_list := [100, 200], book_list := [55], keys := [] }
      ((OptimizerExporter.new
          { achievement_list := [100, 200], book_list := [55], keys := [] }).add_inventory
        { material_list := [{ tid := 55 }] })
      (Reachable.add_inventory { material_list := [{ tid := 55 }] } Reachable.new)).2
    55 (by decide)

/-- The sequence deserializer inverts the sequence serializer. -/
theorem natListOfJson_map (xs : List Nat) :
    natListOfJson (xs.map Json.num) = Except.ok xs := by
  induction xs with
  | nil => rfl
  | cons x rest ih => simp [natListOfJson, Json.asNat, ih]

/-- C9: serializing an export document and parsing it back yields a document
equal to the original in every field. -/
theorem c9_export_json_roundtrip (e : Export) :
    Export.fromJson (Export.toJson e) = Except.ok e := by
  obtain ⟨src, bld, ver, ⟨uid⟩, achs, bks⟩ := e
  cases uid with
  | none =>
    simp [Export.toJson, Export.fromJson, Metadata.toJson, Metadata.fromJson,
      Json.getField, Json.asStr, Json.asNat, Json.asOptNat, Json.asNatList,
      List.lookup, natListOfJson_map, Except.bind]
  | some u =>
    simp [Export.toJson, Export.fromJson, Metadata.toJson, Metadata.fromJson,
      Json.getField, Json.asStr, Json.asNat, Json.asOptNat, Json.asNatList,
      List.lookup, natListOfJson_map, Except.bind]

end Fribbels
